import Mathlib

/-!
Verification of the reservation/booking core of the repository
(problems/bookmyshow.py, with problems/ticketmaster.py for the lock-vs-payment
discipline).  The Python classes `SeatLockManager`, `BookingManager`,
`Booking` are embedded shallowly: the mutable state reachable from one `Show`
object becomes an explicit `ShowState` record, each method becomes a pure
state-transforming function, and the background expiry task submitted to the
executor is recorded in the state so that a later call of `unlock_seats` with
the recorded arguments models the timer firing.
-/

namespace BookMyShow

/-- Seat lifecycle states, from the `SeatStatus` enum in bookmyshow.py
(LOCKED is the temporary hold during the booking process). -/
inductive SeatStatus where
  | AVAILABLE
  | LOCKED
  | BOOKED
deriving DecidableEq, Repr

abbrev SeatId := String

abbrev UserId := String

/-- Lookup in a Python dict modelled as an association list
(`show_locks.get(seat)` / `show_locks[seat]`). -/
def dictLookup : List (SeatId × UserId) → SeatId → Option UserId
  | [], _ => none
  | p :: t, k => if p.1 = k then some p.2 else dictLookup t k

/-- Deletion from a Python dict (`del show_locks[seat]`). -/
def dictErase : List (SeatId × UserId) → SeatId → List (SeatId × UserId)
  | [], _ => []
  | p :: t, k => if p.1 = k then dictErase t k else p :: dictErase t k

/-- Assignment into a Python dict (`show_locks[seat] = user_id`): replaces the
value of an existing key in place, appends a new key at the end. -/
def dictInsert : List (SeatId × UserId) → SeatId → UserId → List (SeatId × UserId)
  | [], k, v => [(k, v)]
  | p :: t, k, v => if p.1 = k then (k, v) :: t else p :: dictInsert t k v

/-- The mutable state touching one `Show` object: the `status` field of each
seat of its screen, the value of `SeatLockManager.locked_seats[show]` (`none`
when the show has no entry in that outer dict), whether `show._lock` has been
created yet by the lazy `getattr`/set pattern, and the list of
`_unlock_after_timeout(show, seats, user_id)` tasks submitted to the
executor. -/
structure ShowState where
  status : SeatId → SeatStatus
  locks : Option (List (SeatId × UserId))
  hasLock : Bool
  timers : List (List SeatId × UserId)

/-- Pointwise update of a seat-status map (`seat.set_status(v)`). -/
def setStatus (f : SeatId → SeatStatus) (s : SeatId) (v : SeatStatus) :
    SeatId → SeatStatus :=
  fun x => if x = s then v else f x

/-- The holder recorded in the lock table for seat `x`, if any
(`self.locked_seats.get(show, {}).get(x)`). -/
def lookupLocks (st : ShowState) (x : SeatId) : Option UserId :=
  dictLookup (st.locks.getD []) x

/-- Model of `SeatLockManager.lock_seats(show, seats, user_id)`.  The lazy
creation of `show._lock` happens first.  Inside `with show_lock`, the check
loop returns as soon as some requested seat is not AVAILABLE (modelled by the
`all` test, since the check loop mutates nothing); otherwise every requested
seat is set LOCKED, recorded in `locked_seats[show]` (created if absent) with
holder `user_id`, and an `_unlock_after_timeout` task is submitted. -/
def lock_seats (st : ShowState) (seats : List SeatId) (uid : UserId) :
    ShowState :=
  let st0 : ShowState := { st with hasLock := true }
  if seats.all (fun s => st.status s = SeatStatus.AVAILABLE) then
    { st0 with
      status := seats.foldl (fun f s => setStatus f s SeatStatus.LOCKED) st.status
      locks := some (seats.foldl (fun t s => dictInsert t s uid) (st.locks.getD []))
      timers := st.timers ++ [(seats, uid)] }
  else st0

/-- One iteration of the loop body of `unlock_seats`: only if the seat is in
the table with the same `user_id` is its entry deleted, and its status set
AVAILABLE only when it is still LOCKED (a BOOKED seat is left BOOKED — the
"booking completion" branch). -/
def unlockStep (uid : UserId)
    (p : (SeatId → SeatStatus) × List (SeatId × UserId)) (s : SeatId) :
    (SeatId → SeatStatus) × List (SeatId × UserId) :=
  if dictLookup p.2 s = some uid then
    if p.1 s = SeatStatus.LOCKED then
      (setStatus p.1 s SeatStatus.AVAILABLE, dictErase p.2 s)
    else
      (p.1, dictErase p.2 s)
  else p

/-- Model of `SeatLockManager.unlock_seats(show, seats, user_id)`: returns at
once when `show._lock` was never created; otherwise, under the show lock, when
the show has a lock-table entry, runs `unlockStep` over the requested seats
and deletes the show's (now empty) entry from `locked_seats` when the table
emptied. -/
def unlock_seats (st : ShowState) (seats : List SeatId) (uid : UserId) :
    ShowState :=
  if st.hasLock then
    match st.locks with
    | none => st
    | some tbl =>
      let p := seats.foldl (unlockStep uid) (st.status, tbl)
      { st with
        status := p.1
        locks := if p.2 = [] then none else some p.2 }
  else st

/-- Model of `Booking.confirm_booking`: every seat of the booking is set
BOOKED, unconditionally. -/
def confirm_booking (f : SeatId → SeatStatus) (seats : List SeatId) :
    SeatId → SeatStatus :=
  seats.foldl (fun g s => setStatus g s SeatStatus.BOOKED) f

/-- Outcome of `BookingManager.create_booking`: a `Booking` was built and
returned (its user and seats recorded here), `None` was returned after a
failed payment, or a `ValueError` raised by `Booking.BookingBuilder.build`
propagated to the caller. -/
inductive BookingResult where
  | booked (seats : List SeatId) (uid : UserId)
  | noBooking
  | valueError (msg : String)
deriving DecidableEq, Repr

/-- Steps 2-5 of `BookingManager.create_booking`, everything after
`lock_seats` has returned: pricing (stateless, elided), the payment strategy
call whose outcome is the parameter `payOk`, and on success the builder
(`build` raises when the seat list is empty, before any state change),
`confirm_booking`, and the cleanup `unlock_seats`.  Splitting the method here
lets the background timer be interleaved at the payment call, the only
long-latency point. -/
def post_payment (st : ShowState) (seats : List SeatId) (uid : UserId)
    (payOk : Bool) : BookingResult × ShowState :=
  if payOk then
    if seats = [] then
      (BookingResult.valueError "Booking must have at least one seat", st)
    else
      let st2 : ShowState := { st with status := confirm_booking st.status seats }
      (BookingResult.booked seats uid, unlock_seats st2 seats uid)
  else
    (BookingResult.noBooking, st)

/-- Model of `BookingManager.create_booking(user, show, seats, strategy)` with
no interleaved timer: `lock_seats` (whose outcome is never inspected by the
Python code), then the post-payment steps. -/
def create_booking (st : ShowState) (seats : List SeatId) (uid : UserId)
    (payOk : Bool) : BookingResult × ShowState :=
  post_payment (lock_seats st seats uid) seats uid payOk

/-- Lock/payment events, used to state where the payment call sits relative
to critical sections. -/
inductive Ev where
  | acq
  | rel
  | sched
  | pay
  | confirmEv
  | raiseEv
deriving DecidableEq, Repr

/-- True when every `pay` event of the trace occurs at lock nesting depth
zero, i.e. outside every critical section. -/
def paysOutsideLock (tr : List Ev) : Bool :=
  (tr.foldl
    (fun (p : Nat × Bool) e =>
      match e with
      | Ev.acq => (p.1 + 1, p.2)
      | Ev.rel => (p.1 - 1, p.2)
      | Ev.pay => (p.1, p.2 && decide (p.1 = 0))
      | _ => p)
    (0, true)).2

/-- The lock/payment events of `BookingManager.create_booking` in program
order: `lock_seats` acquires and releases the show lock, submitting the
timeout task inside the critical section only when the hold succeeds; the
payment strategy runs after `lock_seats` has returned; on success the builder
either raises (empty seat list) or the flow confirms and re-acquires the show
lock inside the cleanup `unlock_seats`. -/
def create_booking_events (st : ShowState) (seats : List SeatId)
    (payOk : Bool) : List Ev :=
  [Ev.acq]
    ++ (if seats.all (fun s => st.status s = SeatStatus.AVAILABLE) then
          [Ev.sched] else [])
    ++ [Ev.rel] ++ [Ev.pay]
    ++ (if payOk then
          if seats = [] then [Ev.raiseEv]
          else [Ev.confirmEv, Ev.acq, Ev.rel]
        else [])

/-! Helper lemmas characterizing the folds inside `lock_seats`,
`unlock_seats` and `confirm_booking`. -/

theorem setStatus_apply (f : SeatId → SeatStatus) (s : SeatId) (v : SeatStatus)
    (x : SeatId) : setStatus f s v x = if x = s then v else f x := rfl

theorem foldl_setStatus_apply (seats : List SeatId) (f : SeatId → SeatStatus)
    (v : SeatStatus) (x : SeatId) :
    (seats.foldl (fun g s => setStatus g s v) f) x
      = if x ∈ seats then v else f x := by
  induction seats generalizing f with
  | nil => simp
  | cons h t ih =>
    rw [List.foldl_cons, ih]
    by_cases hx : x ∈ t
    · simp [hx]
    · by_cases hxh : x = h <;> simp [hx, hxh, setStatus]

theorem dictLookup_insert (t : List (SeatId × UserId)) (k : SeatId)
    (v : UserId) (x : SeatId) :
    dictLookup (dictInsert t k v) x = if x = k then some v else dictLookup t x := by
  induction t with
  | nil =>
    by_cases hx : x = k <;> simp [dictInsert, dictLookup, hx, Ne.symm]
  | cons p t ih =>
    by_cases hp : p.1 = k
    · by_cases hx : x = k <;>
        simp [dictInsert, dictLookup, hp, hx, ih, Ne.symm]
    · by_cases hx : x = k
      · subst hx
        simp [dictInsert, dictLookup, hp, ih]
      · simp [dictInsert, dictLookup, hp, hx, ih]

theorem dictLookup_foldl_insert (seats : List SeatId)
    (t0 : List (SeatId × UserId)) (uid : UserId) (x : SeatId) :
    dictLookup (seats.foldl (fun t s => dictInsert t s uid) t0) x
      = if x ∈ seats then some uid else dictLookup t0 x := by
  induction seats generalizing t0 with
  | nil => simp
  | cons h t ih =>
    rw [List.foldl_cons, ih]
    by_cases hx : x ∈ t
    · simp [hx]
    · by_cases hxh : x = h <;> simp [hx, hxh, dictLookup_insert]

theorem dictLookup_erase (t : List (SeatId × UserId)) (k : SeatId) (x : SeatId) :
    dictLookup (dictErase t k) x = if x = k then none else dictLookup t x := by
  induction t with
  | nil => simp [dictErase, dictLookup]
  | cons p t ih =>
    by_cases hp : p.1 = k
    · by_cases hx : x = k
      · subst hx
        simp [dictErase, dictLookup, hp, ih]
      · have hkx : k ≠ x := fun hkx => hx hkx.symm
        simp [dictErase, dictLookup, hp, hx, hkx, ih]
    · by_cases hx : x = k
      · subst hx
        simp [dictErase, dictLookup, hp, ih]
      · simp [dictErase, dictLookup, hp, hx, ih]

theorem unlockStep_frame (uid : UserId)
    (p : (SeatId → SeatStatus) × List (SeatId × UserId)) (s x : SeatId)
    (h : dictLookup p.2 x ≠ some uid) :
    (unlockStep uid p s).1 x = p.1 x
    ∧ dictLookup (unlockStep uid p s).2 x = dictLookup p.2 x := by
  unfold unlockStep
  by_cases hl : dictLookup p.2 s = some uid
  · have hsx : x ≠ s := by
      rintro rfl
      exact h hl
    by_cases hL : p.1 s = SeatStatus.LOCKED <;>
      simp [hl, hL, setStatus, dictLookup_erase, hsx]
  · simp [hl]

theorem unlockStep_other (uid : UserId)
    (p : (SeatId → SeatStatus) × List (SeatId × UserId)) (s x : SeatId)
    (hsx : x ≠ s) :
    (unlockStep uid p s).1 x = p.1 x
    ∧ dictLookup (unlockStep uid p s).2 x = dictLookup p.2 x := by
  unfold unlockStep
  by_cases hl : dictLookup p.2 s = some uid
  · by_cases hL : p.1 s = SeatStatus.LOCKED <;>
      simp [hl, hL, setStatus, dictLookup_erase, hsx]
  · simp [hl]

theorem unlockFold_frame (seats : List SeatId) (uid : UserId)
    (p : (SeatId → SeatStatus) × List (SeatId × UserId)) (x : SeatId)
    (h : dictLookup p.2 x ≠ some uid) :
    (seats.foldl (unlockStep uid) p).1 x = p.1 x
    ∧ dictLookup (seats.foldl (unlockStep uid) p).2 x = dictLookup p.2 x := by
  induction seats generalizing p with
  | nil => exact ⟨rfl, rfl⟩
  | cons s t ih =>
    rw [List.foldl_cons]
    have hstep := unlockStep_frame uid p s x h
    have ih2 := ih (unlockStep uid p s) (by rw [hstep.2]; exact h)
    exact ⟨ih2.1.trans hstep.1, ih2.2.trans hstep.2⟩

theorem unlockFold_hit (seats : List SeatId) (uid : UserId)
    (p : (SeatId → SeatStatus) × List (SeatId × UserId)) (x : SeatId)
    (hx : x ∈ seats) (h : dictLookup p.2 x = some uid) :
    (seats.foldl (unlockStep uid) p).1 x
        = (if p.1 x = SeatStatus.LOCKED then SeatStatus.AVAILABLE else p.1 x)
    ∧ dictLookup (seats.foldl (unlockStep uid) p).2 x = none := by
  induction seats generalizing p with
  | nil => cases hx
  | cons s t ih =>
    rw [List.foldl_cons]
    by_cases hxs : x = s
    · subst hxs
      have hstep1 : (unlockStep uid p x).1 x
          = if p.1 x = SeatStatus.LOCKED then SeatStatus.AVAILABLE else p.1 x := by
        unfold unlockStep
        by_cases hL : p.1 x = SeatStatus.LOCKED <;> simp [h, hL, setStatus]
      have hstep2 : dictLookup (unlockStep uid p x).2 x = none := by
        unfold unlockStep
        by_cases hL : p.1 x = SeatStatus.LOCKED <;>
          simp [h, hL, dictLookup_erase]
      have hfr := unlockFold_frame t uid (unlockStep uid p x) x
        (by rw [hstep2]; simp)
      exact ⟨hfr.1.trans hstep1, hfr.2.trans hstep2⟩
    · have hstep := unlockStep_other uid p s x hxs
      have hxt : x ∈ t := by
        rcases List.mem_cons.mp hx with hcon | hxt
        · exact absurd hcon hxs
        · exact hxt
      have ih2 := ih (unlockStep uid p s) hxt (by rw [hstep.2]; exact h)
      refine ⟨?_, ih2.2⟩
      rw [ih2.1, hstep.1]

theorem unlockFold_noop (seats : List SeatId) (uid : UserId)
    (p : (SeatId → SeatStatus) × List (SeatId × UserId))
    (h : ∀ s ∈ seats, dictLookup p.2 s ≠ some uid) :
    seats.foldl (unlockStep uid) p = p := by
  induction seats generalizing p with
  | nil => rfl
  | cons s t ih =>
    rw [List.foldl_cons]
    have hstep : unlockStep uid p s = p := by
      unfold unlockStep
      rw [if_neg (h s (List.mem_cons_self s t))]
    rw [hstep]
    exact ih p fun a ha => h a (List.mem_cons_of_mem s ha)

theorem unlockFold_holder_gone (seats : List SeatId) (uid : UserId)
    (p : (SeatId → SeatStatus) × List (SeatId × UserId)) (x : SeatId)
    (hx : x ∈ seats) :
    dictLookup (seats.foldl (unlockStep uid) p).2 x ≠ some uid := by
  by_cases h : dictLookup p.2 x = some uid
  · rw [(unlockFold_hit seats uid p x hx h).2]
    simp
  · rw [(unlockFold_frame seats uid p x h).2]
    exact h

theorem dictLookup_getD (st : ShowState) (x : SeatId) :
    dictLookup (st.locks.getD []) x = lookupLocks st x := rfl

theorem lookupLocks_some (st : ShowState) (tbl : List (SeatId × UserId))
    (h : st.locks = some tbl) (x : SeatId) :
    lookupLocks st x = dictLookup tbl x := by
  rw [lookupLocks, h]
  rfl

theorem lock_seats_reject (st : ShowState) (seats : List SeatId) (uid : UserId)
    (h : ¬ ∀ s ∈ seats, st.status s = SeatStatus.AVAILABLE) :
    lock_seats st seats uid = { st with hasLock := true } := by
  unfold lock_seats
  rw [if_neg (by simpa using h)]

theorem lock_seats_success (st : ShowState) (seats : List SeatId) (uid : UserId)
    (h : ∀ s ∈ seats, st.status s = SeatStatus.AVAILABLE) :
    lock_seats st seats uid
      = { status := seats.foldl (fun f s => setStatus f s SeatStatus.LOCKED) st.status
          locks := some (seats.foldl (fun t s => dictInsert t s uid) (st.locks.getD []))
          hasLock := true
          timers := st.timers ++ [(seats, uid)] } := by
  unfold lock_seats
  rw [if_pos (by simpa using h)]

theorem lock_seats_success_status (st : ShowState) (seats : List SeatId)
    (uid : UserId) (h : ∀ s ∈ seats, st.status s = SeatStatus.AVAILABLE)
    (x : SeatId) :
    (lock_seats st seats uid).status x
      = if x ∈ seats then SeatStatus.LOCKED else st.status x := by
  rw [lock_seats_success st seats uid h]
  exact foldl_setStatus_apply seats st.status SeatStatus.LOCKED x

theorem lock_seats_success_lookup (st : ShowState) (seats : List SeatId)
    (uid : UserId) (h : ∀ s ∈ seats, st.status s = SeatStatus.AVAILABLE)
    (x : SeatId) :
    lookupLocks (lock_seats st seats uid) x
      = if x ∈ seats then some uid else lookupLocks st x := by
  rw [lock_seats_success st seats uid h]
  show dictLookup (seats.foldl (fun t s => dictInsert t s uid) (st.locks.getD [])) x = _
  rw [dictLookup_foldl_insert, dictLookup_getD]

theorem confirm_booking_apply (f : SeatId → SeatStatus) (seats : List SeatId)
    (x : SeatId) :
    confirm_booking f seats x = if x ∈ seats then SeatStatus.BOOKED else f x :=
  foldl_setStatus_apply seats f SeatStatus.BOOKED x

theorem unlock_seats_no_lock (st : ShowState) (seats : List SeatId)
    (uid : UserId) (h : st.hasLock = false) :
    unlock_seats st seats uid = st := by
  unfold unlock_seats
  rw [h]
  rfl

theorem unlock_seats_no_table (st : ShowState) (seats : List SeatId)
    (uid : UserId) (h : st.locks = none) :
    unlock_seats st seats uid = st := by
  unfold unlock_seats
  rw [h]
  cases st.hasLock <;> rfl

theorem unlock_seats_table (st : ShowState) (seats : List SeatId)
    (uid : UserId) (tbl : List (SeatId × UserId)) (hL : st.hasLock = true)
    (h : st.locks = some tbl) :
    unlock_seats st seats uid
      = { st with
          status := (seats.foldl (unlockStep uid) (st.status, tbl)).1
          locks :=
            if (seats.foldl (unlockStep uid) (st.status, tbl)).2 = [] then none
            else some (seats.foldl (unlockStep uid) (st.status, tbl)).2 } := by
  unfold unlock_seats
  rw [hL, h]
  rfl

theorem unlock_frame_of_not_holder (st : ShowState) (seats : List SeatId)
    (uid : UserId) (x : SeatId) (h : lookupLocks st x ≠ some uid) :
    (unlock_seats st seats uid).status x = st.status x
    ∧ lookupLocks (unlock_seats st seats uid) x = lookupLocks st x := by
  cases hL : st.hasLock with
  | false => rw [unlock_seats_no_lock st seats uid hL]; exact ⟨rfl, rfl⟩
  | true =>
    cases hlocks : st.locks with
    | none => rw [unlock_seats_no_table st seats uid hlocks]; exact ⟨rfl, rfl⟩
    | some tbl =>
      have h' : dictLookup tbl x ≠ some uid := by
        rw [lookupLocks_some st tbl hlocks x] at h
        exact h
      have hfr := unlockFold_frame seats uid (st.status, tbl) x h'
      rw [unlock_seats_table st seats uid tbl hL hlocks,
        lookupLocks_some st tbl hlocks x]
      refine ⟨hfr.1, ?_⟩
      by_cases hnil : (seats.foldl (unlockStep uid) (st.status, tbl)).2 = []
      · have h0 : dictLookup tbl x = none := by
          have h2 := hfr.2
          rw [hnil] at h2
          exact h2.symm
        simp [lookupLocks, dictLookup, hnil, h0]
      · simp only [lookupLocks, hnil, if_neg, ite_false, Option.getD_some]
        exact hfr.2

theorem unlock_hit (st : ShowState) (seats : List SeatId) (uid : UserId)
    (x : SeatId) (hx : x ∈ seats) (h : lookupLocks st x = some uid)
    (hL : st.hasLock = true) :
    (unlock_seats st seats uid).status x
        = (if st.status x = SeatStatus.LOCKED then SeatStatus.AVAILABLE
           else st.status x)
    ∧ lookupLocks (unlock_seats st seats uid) x = none := by
  cases hlocks : st.locks with
  | none =>
    rw [lookupLocks, hlocks] at h
    cases h
  | some tbl =>
    have h' : dictLookup tbl x = some uid := by
      rw [lookupLocks_some st tbl hlocks x] at h
      exact h
    have hhit := unlockFold_hit seats uid (st.status, tbl) x hx h'
    rw [unlock_seats_table st seats uid tbl hL hlocks]
    refine ⟨hhit.1, ?_⟩
    by_cases hnil : (seats.foldl (unlockStep uid) (st.status, tbl)).2 = []
    · simp [lookupLocks, dictLookup, hnil]
    · simp only [lookupLocks, hnil, if_neg, ite_false, Option.getD_some]
      exact hhit.2

theorem unlock_unlock (st : ShowState) (seats : List SeatId) (uid : UserId) :
    unlock_seats (unlock_seats st seats uid) seats uid
      = unlock_seats st seats uid := by
  cases hL : st.hasLock with
  | false =>
    rw [unlock_seats_no_lock st seats uid hL,
        unlock_seats_no_lock st seats uid hL]
  | true =>
    cases hlocks : st.locks with
    | none =>
      rw [unlock_seats_no_table st seats uid hlocks,
          unlock_seats_no_table st seats uid hlocks]
    | some tbl =>
      set q := seats.foldl (unlockStep uid) (st.status, tbl) with hq
      by_cases hnil : q.2 = []
      · rw [unlock_seats_table st seats uid tbl hL hlocks]
        refine unlock_seats_no_table _ seats uid ?_
        show (if q.2 = [] then none else some q.2) = none
        rw [if_pos hnil]
      · have hrec : unlock_seats st seats uid
            = { st with status := q.1, locks := some q.2 } := by
          rw [unlock_seats_table st seats uid tbl hL hlocks, if_neg hnil]
        rw [hrec]
        have hL2 : ShowState.hasLock
            { st with status := q.1, locks := some q.2 } = true := hL
        have hlocks2 : ShowState.locks
            { st with status := q.1, locks := some q.2 } = some q.2 := rfl
        rw [unlock_seats_table _ seats uid q.2 hL2 hlocks2]
        have hno : seats.foldl (unlockStep uid)
            (ShowState.status { st with status := q.1, locks := some q.2 }, q.2)
            = q := by
          show seats.foldl (unlockStep uid) (q.1, q.2) = q
          rw [Prod.mk.eta]
          refine unlockFold_noop seats uid q fun s hs => ?_
          rw [hq]
          exact unlockFold_holder_gone seats uid (st.status, tbl) s hs
        rw [hno, if_neg hnil]

theorem post_payment_success (st : ShowState) (seats : List SeatId)
    (uid : UserId) (hne : seats ≠ []) :
    post_payment st seats uid true
      = (BookingResult.booked seats uid,
         unlock_seats { st with status := confirm_booking st.status seats }
           seats uid) := by
  unfold post_payment
  rw [if_pos rfl, if_neg hne]

theorem post_payment_fail (st : ShowState) (seats : List SeatId)
    (uid : UserId) :
    post_payment st seats uid false = (BookingResult.noBooking, st) := rfl

theorem post_payment_status_of_not_holder (st2 : ShowState)
    (seats : List SeatId) (uid : UserId) (s : SeatId) (hs : s ∈ seats)
    (hne : seats ≠ []) (h : lookupLocks st2 s ≠ some uid) :
    (post_payment st2 seats uid true).2.status s = SeatStatus.BOOKED := by
  rw [post_payment_success st2 seats uid hne]
  show (unlock_seats { st2 with status := confirm_booking st2.status seats }
      seats uid).status s = SeatStatus.BOOKED
  have hfr := unlock_frame_of_not_holder
    { st2 with status := confirm_booking st2.status seats } seats uid s
    (by show lookupLocks st2 s ≠ some uid; exact h)
  rw [hfr.1]
  show confirm_booking st2.status seats s = SeatStatus.BOOKED
  rw [confirm_booking_apply, if_pos hs]

end BookMyShow

namespace Ticketmaster

/-- Seat states of problems/ticketmaster.py. -/
inductive TMSeatStatus where
  | AVAILABLE
  | BOOKED
  | RESERVED
deriving DecidableEq, Repr

/-- The lock/payment events of
`ConcertTicketBookingSystem.book_tickets(user, concert, seats)` in program
order: the whole body — availability check (which raises
`SeatNotAvailableException` on a non-AVAILABLE seat), seat booking, booking
creation, `_process_payment`, confirmation — runs inside `with self._lock`,
which is released only when the block exits (also on the raise). -/
def book_tickets_events (statuses : List TMSeatStatus) : List BookMyShow.Ev :=
  [BookMyShow.Ev.acq]
    ++ (if statuses.all (fun s => s = TMSeatStatus.AVAILABLE) then
          [BookMyShow.Ev.pay, BookMyShow.Ev.confirmEv]
        else [BookMyShow.Ev.raiseEv])
    ++ [BookMyShow.Ev.rel]

end Ticketmaster

open BookMyShow

/-! Concrete states and claim theorems.  Each concrete `ShowState` below is a
reachable configuration: seats start AVAILABLE and become BOOKED/LOCKED only
through the operations modelled above. -/

/-- State for C1: seat A1 already BOOKED (by an earlier confirmed booking),
seat B1 AVAILABLE; no outstanding holds. -/
def stC1 : ShowState :=
  { status := fun s => if s = "A1" then SeatStatus.BOOKED else SeatStatus.AVAILABLE
    locks := none
    hasLock := true
    timers := [] }

/-- C1: the claim fails on the code (code bug).  With seat A1 not AVAILABLE at
hold time, `lock_seats` refuses the hold and schedules no expiry task, but
`BookingManager.create_booking` never inspects that outcome: the payment event
still occurs, a `Booking` is returned instead of any ResourceUnavailable
failure, and `confirm_booking` marks B1 (and the already-sold A1) BOOKED. -/
theorem create_booking_ignores_unavailable_seats :
    stC1.status "A1" ≠ SeatStatus.AVAILABLE
    ∧ (lock_seats stC1 ["A1", "B1"] "u2").timers = []
    ∧ Ev.pay ∈ create_booking_events stC1 ["A1", "B1"] true
    ∧ (create_booking stC1 ["A1", "B1"] "u2" true).1
        = BookingResult.booked ["A1", "B1"] "u2"
    ∧ (create_booking stC1 ["A1", "B1"] "u2" true).2.status "B1"
        = SeatStatus.BOOKED := by
  decide

/-- State for C2: seat X1 already BOOKED by an earlier booking, seat Y1
AVAILABLE and held by nobody. -/
def stC2 : ShowState :=
  { status := fun s => if s = "X1" then SeatStatus.BOOKED else SeatStatus.AVAILABLE
    locks := none
    hasLock := true
    timers := [] }

/-- C2: the invariant fails on the code (code bug).  Y1 is AVAILABLE and held
by nobody, the hold request {X1, Y1} is refused (so Y1 is never LOCKED and
never acquires a holder record during the call), yet a succeeding payment
makes `create_booking` return a new `Booking` whose seat list contains the
already-BOOKED X1 — two bookings now reference X1 — and moves Y1 from
AVAILABLE directly to BOOKED, never passing through the held state. -/
theorem confirm_bypasses_hold_invariant :
    stC2.status "Y1" = SeatStatus.AVAILABLE
    ∧ lookupLocks stC2 "Y1" = none
    ∧ (lock_seats stC2 ["X1", "Y1"] "u2").status "Y1" = SeatStatus.AVAILABLE
    ∧ lookupLocks (lock_seats stC2 ["X1", "Y1"] "u2") "Y1" = none
    ∧ stC2.status "X1" = SeatStatus.BOOKED
    ∧ (create_booking stC2 ["X1", "Y1"] "u2" true).1
        = BookingResult.booked ["X1", "Y1"] "u2"
    ∧ (create_booking stC2 ["X1", "Y1"] "u2" true).2.status "Y1"
        = SeatStatus.BOOKED := by
  decide

/-- State for C3: one free seat A1, nothing held. -/
def stC3 : ShowState :=
  { status := fun _ => SeatStatus.AVAILABLE
    locks := none
    hasLock := false
    timers := [] }

/-- C3 is false on the code as stated: a hold on {A1} whose expiry task fires
during the payment call releases the seat (it is AVAILABLE again), yet when
the payment then succeeds the flow continues — it returns a `Booking` (there
is no HoldExpired outcome at all) and the seat ends BOOKED, not AVAILABLE. -/
theorem expired_hold_still_booked_cex :
    (unlock_seats (lock_seats stC3 ["A1"] "u") ["A1"] "u").status "A1"
        = SeatStatus.AVAILABLE
    ∧ (post_payment (unlock_seats (lock_seats stC3 ["A1"] "u") ["A1"] "u")
        ["A1"] "u" true).1 = BookingResult.booked ["A1"] "u"
    ∧ (post_payment (unlock_seats (lock_seats stC3 ["A1"] "u") ["A1"] "u")
        ["A1"] "u" true).2.status "A1" = SeatStatus.BOOKED := by
  decide

/-- C3 (amended): when the expiry task has already released the hold before a
successful payment completes, `create_booking` does not detect the loss: the
post-payment steps still return a `Booking` and re-mark every requested seat
BOOKED (the code has no HoldExpired outcome distinct from payment failure). -/
theorem expired_hold_booked_anyway (st : ShowState) (seats : List SeatId)
    (uid : UserId) (hav : ∀ s ∈ seats, st.status s = SeatStatus.AVAILABLE)
    (hne : seats ≠ []) :
    (post_payment (unlock_seats (lock_seats st seats uid) seats uid)
        seats uid true).1 = BookingResult.booked seats uid
    ∧ ∀ s ∈ seats,
        (post_payment (unlock_seats (lock_seats st seats uid) seats uid)
          seats uid true).2.status s = SeatStatus.BOOKED := by
  constructor
  · rw [post_payment_success _ seats uid hne]
  · intro s hs
    refine post_payment_status_of_not_holder _ seats uid s hs hne ?_
    have hLhas : (lock_seats st seats uid).hasLock = true := by
      rw [lock_seats_success st seats uid hav]
    have hLlook : lookupLocks (lock_seats st seats uid) s = some uid := by
      rw [lock_seats_success_lookup st seats uid hav s, if_pos hs]
    rw [(unlock_hit (lock_seats st seats uid) seats uid s hs hLlook hLhas).2]
    simp

/-- Witness for the amended C3 at a concrete input. -/
theorem expired_hold_booked_anyway_witness :
    (post_payment (unlock_seats (lock_seats stC3 ["B7"] "w") ["B7"] "w")
        ["B7"] "w" true).1 = BookingResult.booked ["B7"] "w"
    ∧ (post_payment (unlock_seats (lock_seats stC3 ["B7"] "w") ["B7"] "w")
        ["B7"] "w" true).2.status "B7" = SeatStatus.BOOKED := by
  have h := expired_hold_booked_anyway stC3 ["B7"] "w" (by decide) (by decide)
  exact ⟨h.1, h.2 "B7" (by decide)⟩

/-- C4: `lock_seats` is all-or-nothing.  If any requested seat is not
AVAILABLE, no seat status, no lock-table entry and no timer list changes; if
every requested seat is AVAILABLE, each requested seat becomes LOCKED with
holder `uid` recorded, and every other seat keeps its status and its holder
entry. -/
theorem lock_seats_all_or_nothing (st : ShowState) (seats : List SeatId)
    (uid : UserId) :
    (¬ (∀ s ∈ seats, st.status s = SeatStatus.AVAILABLE) →
      (lock_seats st seats uid).status = st.status
      ∧ (lock_seats st seats uid).locks = st.locks
      ∧ (lock_seats st seats uid).timers = st.timers)
    ∧ ((∀ s ∈ seats, st.status s = SeatStatus.AVAILABLE) →
      (∀ s ∈ seats, (lock_seats st seats uid).status s = SeatStatus.LOCKED
        ∧ lookupLocks (lock_seats st seats uid) s = some uid)
      ∧ ∀ x, x ∉ seats → (lock_seats st seats uid).status x = st.status x
        ∧ lookupLocks (lock_seats st seats uid) x = lookupLocks st x) := by
  constructor
  · intro h
    rw [lock_seats_reject st seats uid h]
    exact ⟨rfl, rfl, rfl⟩
  · intro h
    constructor
    · intro s hs
      rw [lock_seats_success_status st seats uid h s,
          lock_seats_success_lookup st seats uid h s]
      simp [hs]
    · intro x hx
      rw [lock_seats_success_status st seats uid h x,
          lock_seats_success_lookup st seats uid h x]
      simp [hx]

/-- State for the C4 witness: B2 is LOCKED by bob, everything else free. -/
def stC4 : ShowState :=
  { status := fun s => if s = "B2" then SeatStatus.LOCKED else SeatStatus.AVAILABLE
    locks := some [("B2", "bob")]
    hasLock := true
    timers := [] }

/-- Witness for C4: both branches applied at concrete inputs — a request
touching the LOCKED B2 changes nothing, a request for the free A1 locks
exactly A1 for alice and leaves B2 alone. -/
theorem lock_seats_all_or_nothing_witness :
    (lock_seats stC4 ["A1", "B2"] "alice").locks = stC4.locks
    ∧ (lock_seats stC4 ["A1"] "alice").status "A1" = SeatStatus.LOCKED
    ∧ lookupLocks (lock_seats stC4 ["A1"] "alice") "A1" = some "alice"
    ∧ (lock_seats stC4 ["A1"] "alice").status "B2" = stC4.status "B2"
    ∧ lookupLocks (lock_seats stC4 ["A1"] "alice") "B2" = lookupLocks stC4 "B2" := by
  refine ⟨((lock_seats_all_or_nothing stC4 ["A1", "B2"] "alice").1
      (by decide)).2.1, ?_, ?_, ?_, ?_⟩
  · exact (((lock_seats_all_or_nothing stC4 ["A1"] "alice").2
      (by decide)).1 "A1" (by decide)).1
  · exact (((lock_seats_all_or_nothing stC4 ["A1"] "alice").2
      (by decide)).1 "A1" (by decide)).2
  · exact (((lock_seats_all_or_nothing stC4 ["A1"] "alice").2
      (by decide)).2 "B2" (by decide)).1
  · exact (((lock_seats_all_or_nothing stC4 ["A1"] "alice").2
      (by decide)).2 "B2" (by decide)).2

/-- State for C5: everything free, nothing held. -/
def stC5 : ShowState :=
  { status := fun _ => SeatStatus.AVAILABLE
    locks := none
    hasLock := false
    timers := [] }

/-- C5 is false on the code as stated: immediately after `create_booking`
returns from a failed payment, the seat is still LOCKED with its lock-table
entry intact — the hold was not released before returning. -/
theorem payment_failure_leaves_seats_locked_cex :
    (create_booking stC5 ["A1"] "u" false).1 = BookingResult.noBooking
    ∧ (create_booking stC5 ["A1"] "u" false).2.status "A1" = SeatStatus.LOCKED
    ∧ lookupLocks (create_booking stC5 ["A1"] "u" false).2 "A1" = some "u" := by
  decide

/-- C5 (amended): when payment fails, `create_booking` returns `None` without
releasing the hold: every held seat stays LOCKED with its lock-table entry and
the submitted timeout task pending, and only the timeout task's later
`unlock_seats` call makes the seats AVAILABLE again. -/
theorem payment_failure_no_immediate_release (st : ShowState)
    (seats : List SeatId) (uid : UserId)
    (hav : ∀ s ∈ seats, st.status s = SeatStatus.AVAILABLE) :
    (create_booking st seats uid false).1 = BookingResult.noBooking
    ∧ (∀ s ∈ seats,
        (create_booking st seats uid false).2.status s = SeatStatus.LOCKED
        ∧ lookupLocks (create_booking st seats uid false).2 s = some uid)
    ∧ (create_booking st seats uid false).2.timers = st.timers ++ [(seats, uid)]
    ∧ ∀ s ∈ seats,
        (unlock_seats (create_booking st seats uid false).2 seats uid).status s
          = SeatStatus.AVAILABLE := by
  refine ⟨rfl, ?_, ?_, ?_⟩
  · intro s hs
    show (lock_seats st seats uid).status s = SeatStatus.LOCKED
      ∧ lookupLocks (lock_seats st seats uid) s = some uid
    rw [lock_seats_success_status st seats uid hav s,
        lock_seats_success_lookup st seats uid hav s]
    simp [hs]
  · show (lock_seats st seats uid).timers = st.timers ++ [(seats, uid)]
    rw [lock_seats_success st seats uid hav]
  · intro s hs
    show (unlock_seats (lock_seats st seats uid) seats uid).status s
        = SeatStatus.AVAILABLE
    have hLhas : (lock_seats st seats uid).hasLock = true := by
      rw [lock_seats_success st seats uid hav]
    have hLlook : lookupLocks (lock_seats st seats uid) s = some uid := by
      rw [lock_seats_success_lookup st seats uid hav s, if_pos hs]
    rw [(unlock_hit (lock_seats st seats uid) seats uid s hs hLlook hLhas).1,
        lock_seats_success_status st seats uid hav s, if_pos hs]
    rfl

/-- Witness for the amended C5 at a concrete input. -/
theorem payment_failure_no_immediate_release_witness :
    (create_booking stC5 ["B2"] "bob" false).1 = BookingResult.noBooking
    ∧ (create_booking stC5 ["B2"] "bob" false).2.status "B2" = SeatStatus.LOCKED
    ∧ (unlock_seats (create_booking stC5 ["B2"] "bob" false).2 ["B2"] "bob").status "B2"
        = SeatStatus.AVAILABLE := by
  have h := payment_failure_no_immediate_release stC5 ["B2"] "bob" (by decide)
  exact ⟨h.1, (h.2.1 "B2" (by decide)).1, h.2.2.2 "B2" (by decide)⟩

/-- C6: release is idempotent.  A second `unlock_seats` call with the same
show, seat list and user is a complete no-op: it changes no seat status, no
lock-table entry and nothing else in the state, exactly as after the first
call. -/
theorem unlock_seats_idempotent (st : ShowState) (seats : List SeatId)
    (uid : UserId) :
    unlock_seats (unlock_seats st seats uid) seats uid
      = unlock_seats st seats uid :=
  unlock_unlock st seats uid

/-- C7: confirm wins the race with the expiry timer.  When every requested
seat was AVAILABLE and payment succeeds, `create_booking` confirms the seats
BOOKED and cleans up its own lock entries; the expiry task's later
`unlock_seats` call is then a complete no-op and every confirmed seat remains
BOOKED — none is reverted to AVAILABLE. -/
theorem confirm_wins_expiry_race (st : ShowState) (seats : List SeatId)
    (uid : UserId) (hav : ∀ s ∈ seats, st.status s = SeatStatus.AVAILABLE)
    (hne : seats ≠ []) :
    unlock_seats (create_booking st seats uid true).2 seats uid
        = (create_booking st seats uid true).2
    ∧ ∀ s ∈ seats,
        (create_booking st seats uid true).2.status s = SeatStatus.BOOKED := by
  have hcb : (create_booking st seats uid true).2
      = unlock_seats
          { lock_seats st seats uid with
            status := confirm_booking (lock_seats st seats uid).status seats }
          seats uid := by
    rw [create_booking, post_payment_success (lock_seats st seats uid) seats uid hne]
  constructor
  · rw [hcb]
    exact unlock_unlock _ seats uid
  · intro s hs
    rw [hcb]
    have hL2 : ShowState.hasLock
        { lock_seats st seats uid with
          status := confirm_booking (lock_seats st seats uid).status seats }
        = true := by
      show (lock_seats st seats uid).hasLock = true
      rw [lock_seats_success st seats uid hav]
    have hlook : lookupLocks
        { lock_seats st seats uid with
          status := confirm_booking (lock_seats st seats uid).status seats } s
        = some uid := by
      show lookupLocks (lock_seats st seats uid) s = some uid
      rw [lock_seats_success_lookup st seats uid hav s, if_pos hs]
    have hstat : ShowState.status
        { lock_seats st seats uid with
          status := confirm_booking (lock_seats st seats uid).status seats } s
        = SeatStatus.BOOKED := by
      show confirm_booking (lock_seats st seats uid).status seats s
          = SeatStatus.BOOKED
      rw [confirm_booking_apply, if_pos hs]
    rw [(unlock_hit _ seats uid s hs hlook hL2).1, hstat]
    rfl

/-- State for the C7 witness. -/
def stC7 : ShowState :=
  { status := fun _ => SeatStatus.AVAILABLE
    locks := none
    hasLock := false
    timers := [] }

/-- Witness for C7 at a concrete input. -/
theorem confirm_wins_expiry_race_witness :
    unlock_seats (create_booking stC7 ["A1"] "alice" true).2 ["A1"] "alice"
        = (create_booking stC7 ["A1"] "alice" true).2
    ∧ (create_booking stC7 ["A1"] "alice" true).2.status "A1"
        = SeatStatus.BOOKED := by
  have h := confirm_wins_expiry_race stC7 ["A1"] "alice" (by decide) (by decide)
  exact ⟨h.1, h.2 "A1" (by decide)⟩

/-- State for C8: everything free, nothing held, no task submitted yet. -/
def stC8 : ShowState :=
  { status := fun _ => SeatStatus.AVAILABLE
    locks := none
    hasLock := false
    timers := [] }

/-- C8 fails on the code (code bug): a hold request for the empty seat set is
not rejected up front — `lock_seats` vacuously succeeds, creates an empty
lock-table entry for the show and submits an expiry task, the payment event
still occurs, and only afterwards does `BookingBuilder.build` raise the
ValueError that documents the code's own rule that a booking needs at least
one seat. -/
theorem empty_request_schedules_timer_and_pays :
    (create_booking stC8 [] "u" true).1
        = BookingResult.valueError "Booking must have at least one seat"
    ∧ (create_booking stC8 [] "u" true).2.timers = [([], "u")]
    ∧ (create_booking stC8 [] "u" true).2.locks = some []
    ∧ Ev.pay ∈ create_booking_events stC8 [] true := by
  decide

/-- C9 is false as stated over the booking flows it cites: in ticketmaster's
`book_tickets` the availability check, seat booking, `_process_payment` and
confirmation all run inside `with self._lock`, so the payment call executes
at lock depth 1, shown here on a concert with two AVAILABLE seats. -/
theorem ticketmaster_pays_under_lock_cex :
    paysOutsideLock
      (Ticketmaster.book_tickets_events
        [Ticketmaster.TMSeatStatus.AVAILABLE,
         Ticketmaster.TMSeatStatus.AVAILABLE]) = false := by
  decide

/-- C9 (amended): in bookmyshow's `create_booking` the per-show lock is never
held at the payment call — for every starting state, seat list and payment
outcome, the payment event occurs at lock nesting depth zero. -/
theorem create_booking_pays_outside_lock (st : ShowState)
    (seats : List SeatId) (payOk : Bool) :
    paysOutsideLock (create_booking_events st seats payOk) = true := by
  unfold create_booking_events
  cases payOk with
  | false =>
    by_cases h1 : (seats.all fun s => decide (st.status s = SeatStatus.AVAILABLE)) = true
    · rw [if_pos h1, if_neg (by decide : ¬ (false = true))]; decide
    · rw [if_neg h1, if_neg (by decide : ¬ (false = true))]; decide
  | true =>
    by_cases h2 : seats = []
    · by_cases h1 : (seats.all fun s => decide (st.status s = SeatStatus.AVAILABLE)) = true
      · rw [if_pos h1, if_pos h2]; decide
      · rw [if_neg h1, if_pos h2]; decide
    · by_cases h1 : (seats.all fun s => decide (st.status s = SeatStatus.AVAILABLE)) = true
      · rw [if_pos h1, if_neg h2]; decide
      · rw [if_neg h1, if_neg h2]; decide

/-- C10: release is holder-scoped.  For any seat whose recorded holder in the
lock table is not `uid` (a different user, or no entry at all),
`unlock_seats(show, seats, uid)` leaves both the seat's status and its
lock-table entry exactly unchanged. -/
theorem unlock_seats_holder_scoped (st : ShowState) (seats : List SeatId)
    (uid : UserId) (x : SeatId) (h : lookupLocks st x ≠ some uid) :
    (unlock_seats st seats uid).status x = st.status x
    ∧ lookupLocks (unlock_seats st seats uid) x = lookupLocks st x :=
  unlock_frame_of_not_holder st seats uid x h

/-- State for the C10 witness: A1 LOCKED by bob, A2 LOCKED by alice. -/
def stC10 : ShowState :=
  { status := fun s =>
      if s = "A1" then SeatStatus.LOCKED
      else if s = "A2" then SeatStatus.LOCKED
      else SeatStatus.AVAILABLE
    locks := some [("A1", "bob"), ("A2", "alice")]
    hasLock := true
    timers := [] }

/-- Witness for C10: alice's unlock call naming both seats leaves bob's
A1 LOCKED and still registered to bob. -/
theorem unlock_seats_holder_scoped_witness :
    (unlock_seats stC10 ["A1", "A2"] "alice").status "A1" = SeatStatus.LOCKED
    ∧ lookupLocks (unlock_seats stC10 ["A1", "A2"] "alice") "A1" = some "bob" := by
  have h := unlock_seats_holder_scoped stC10 ["A1", "A2"] "alice" "A1" (by decide)
  exact ⟨h.1.trans (by decide), h.2.trans (by decide)⟩
